import Mathlib

/-!
Verification development for the feedbot command layer.

The definitions below are a shallow embedding of the Go source file
(package feedbot, command dispatch and configuration handlers).  Effectful
Go code is modelled by explicit environments: the chat transport, the
member/role directory and the repository are records of functions, replies
are accumulated in a list, repository writes are recorded as `Mutation`
values, and a returned Go `error` is an `Option GoErr` / `Except GoErr`.
-/

deriving instance DecidableEq for Except

namespace Feedbot

abbrev GoErr := String

/-- Repository errors: `sql.ErrNoRows` is distinguished from other errors,
mirroring the `err == sql.ErrNoRows` comparisons in the source. -/
inductive RepoErr where
  | noRows
  | other (e : GoErr)
deriving DecidableEq

/-- Per-subscription tri-state overrides; `sql.NullBool` is `Option Bool`
(`none` = `Valid:false`, i.e. inherit). -/
structure Overwrite where
  Embeds : Option Bool
  Webhooks : Option Bool
deriving DecidableEq

structure Subscription where
  ID : Int
  ChannelID : String
  GuildID : String
  FeedURI : String
  Overwrite : Overwrite
deriving DecidableEq

structure Feed where
  ID : Int
  URI : String
deriving DecidableEq

structure GuildConfig where
  Contact : String
  Embeds : Bool
  Webhooks : Bool
deriving DecidableEq

structure Member where
  roles : List String
deriving DecidableEq

structure Role where
  permissions : Nat
deriving DecidableEq

/-- Member/role lookups offered by the discordgo session.  `stateMember` and
`stateRole` are the cache (`s.State.Member`, `s.State.Role`); `guildMember`
and `guildRole` are the live directory queries.  The source's
`memberHasPermission` calls `guildMember` as a fallback but never calls
`guildRole`. -/
structure Directory where
  stateMember : String → String → Except GoErr Member
  guildMember : String → String → Except GoErr Member
  stateRole : String → String → Except GoErr Role
  guildRole : String → String → Except GoErr Role

/-- Repository writes recorded by the embedding, one constructor per
mutating repository call in the source. -/
inductive Mutation where
  | getOrCreateFeed (uri : String)
  | addSubscription (channelID guildID : String) (feedID : Int)
  | destroySub (id : Int)
  | modifySubChannel (id : Int) (channelID : String)
  | modifyGuildContact (guildID contact : String)
  | modifyGuildEmbeds (guildID : String) (v : Bool)
  | modifyGuildWebhooks (guildID : String) (v : Bool)
  | modifyOverwriteEmbeds (id : Int) (v : Option Bool)
  | modifyOverwriteWebhooks (id : Int) (v : Option Bool)
  | createGuildConfig (guildID contact : String)
deriving DecidableEq

/-- Result of `AddSubscription`: ok, the distinguished `ErrSubExists`
condition (which still carries the existing subscription), or a failure. -/
inductive AddSubResult where
  | ok (s : Subscription)
  | dup (s : Subscription)
  | fail (e : GoErr)
deriving DecidableEq

/-- The collaborators a handler invocation sees: the directory, the
transport send (`sendErr m` is the error of sending reply `m`; `none` means
the send succeeded), and the repository calls. -/
structure Env where
  dir : Directory
  sendErr : String → Option GoErr
  getSubscription : Int → Except RepoErr Subscription
  destroySubscription : Int → Option GoErr
  modifySubscriptionChannel : Int → String → Option GoErr
  modifyGuildContact : String → String → Option GoErr
  modifyGuildEmbeds : String → Bool → Option GoErr
  modifyGuildWebhooks : String → Bool → Option GoErr
  modifyOverwriteEmbeds : Int → Option Bool → Option GoErr
  modifyOverwriteWebhooks : Int → Option Bool → Option GoErr
  getGuildConfig : String → Except GoErr GuildConfig
  getSubscriptions : String → Except GoErr (List Subscription)
  getOrCreateFeed : String → Except GoErr Feed
  addSubscription : String → String → Int → AddSubResult

/-- The per-message context (`type context` in the source): invoking guild,
channel, author, the message's user mentions and the parsed arguments. -/
structure Ctx where
  guildID : String
  channelID : String
  authorID : String
  mentions : List String
  args : List String
deriving DecidableEq

/-- A handler's observable outcome: replies sent (in order), repository
mutations performed (in order), and the Go error it returned. -/
structure HOut where
  replies : List String
  muts : List Mutation
  err : Option GoErr
deriving DecidableEq

/-- `return ctx.Reply(m)`: record the reply attempt, return the send error. -/
def replyOut (env : Env) (rs : List String) (ms : List Mutation) (m : String) : HOut :=
  { replies := rs ++ [m], muts := ms, err := env.sendErr m }

/-! ### strconv.Atoi -/

def digitsVal (l : List Char) : Nat :=
  l.foldl (fun n c => 10 * n + (c.toNat - 48)) 0

def atoiDigits (ds : List Char) (pos : Bool) : Option Int :=
  if ds = [] then none
  else if ds.all Char.isDigit then
    let n := digitsVal ds
    if pos then
      if n ≤ 9223372036854775807 then some (n : Int) else none
    else
      if n ≤ 9223372036854775808 then some (-(n : Int)) else none
  else none

/-- Go `strconv.Atoi`: optional sign, then decimal digits, rejecting
anything else and values outside the 64-bit int range. -/
def atoi (s : String) : Option Int :=
  match s.data with
  | '+' :: ds => atoiDigits ds true
  | '-' :: ds => atoiDigits ds false
  | ds => atoiDigits ds true

/-! ### channelRegex

The source compiles the regular expression `<#\d+>` and uses
`channelRegex.MatchString`, which succeeds when the pattern matches
anywhere inside the argument (substring search, not anchored). -/

/-- After `<#` and at least one digit: consume digits until a `>`. -/
def moreDigitsClose : List Char → Bool
  | [] => false
  | c :: rest => if c = '>' then true else Char.isDigit c && moreDigitsClose rest

/-- At least one digit, then (more digits and) `>`. -/
def digitsClose1 : List Char → Bool
  | [] => false
  | c :: rest => Char.isDigit c && moreDigitsClose rest

/-- Does a `<#\d+>` match start at the head of the list? -/
def mentionAt : List Char → Bool
  | a :: b :: rest => a = '<' && b = '#' && digitsClose1 rest
  | _ => false

/-- Does `<#\d+>` match anywhere in the list? -/
def containsChanMention : List Char → Bool
  | [] => false
  | c :: rest => mentionAt (c :: rest) || containsChanMention rest

/-- `channelRegex.MatchString`. -/
def channelMatch (s : String) : Bool :=
  containsChanMention s.data

/-- The slice `c[2 : len(c)-1]` the source applies to a matched token:
drop the first two characters and the last one.  (Go slices bytes; the
embedding works with characters, which coincides on ASCII tokens.) -/
def stripMention (c : String) : String :=
  String.mk ((c.data.drop 2).dropLast)

/-- The shared recognize-then-slice step of `add`, `setChannel` and
`setContact`: `none` when `channelRegex` does not match (the handlers then
reply with the mention-usage message), otherwise the sliced token. -/
def chanToken (c : String) : Option String :=
  if channelMatch c then some (stripMention c) else none

/-! ### Reply texts (verbatim from the source) -/

def adminOnly : String := "Sorry, feedbot requires the **ADMINISTRATOR** privilege!"

def usageAddMsg : String := "**usage:** `add <uri> [channel]`; please omit spaces from arguments!"

def useMentionMsg : String := "when specifying a channel ID, please use a #channel mention!"

def subExistsMsg (id : Int) : String :=
  "this subscription (#" ++ toString id ++ ") already exists!"

def subCreatedMsg (id : Int) : String :=
  "subscription #" ++ toString id ++ " created!"

def usageRemoveMsg : String := "**usage:** `remove <id>`; please omit spaces from arguments?!"

def idNumberMsg : String := "`id` must be a number!"

def notFoundMsg : String := "could not find a subscription with that ID, check the list again?"

def notInGuildMsg (id : Int) : String :=
  "subscription #" ++ toString id ++ " does not exist in this guild."

def deletedMsg (id : Int) : String :=
  "subscription #" ++ toString id ++ " has been deleted."

def usageSetMsg : String := "**usage:** set <channel|contact|embed|webhook> ..., see help command."

def subcommandMsg : String := "subcommand must be one of channel|contact|embed|webhook, see help command."

def usageSetChannelMsg : String := "**usage:** `set channel <id> [channel]`; please omit spaces from arguments?!"

def channelChangedMsg (id : Int) (ch : String) : String :=
  "subscription #" ++ toString id ++ " will now write to <#" ++ ch ++ ">"

def usageContactMsg : String :=
  "**usage:** `set contact <user|channel>`; please use a user mention, user id, or channel mention, and omit spaces."

def contactInvalidMsg : String :=
  "contact must be a user mention, user id, or channel mention; not a user name or channel name."

def contactChangedMsg : String := "the guild's contact has been changed."

def usageEmbedMsg : String := "**usage:** `set embed <on|off|inherit> [id]`"

def usageWebhookMsg : String := "**usage:** `set webhook <on|off> [id]`"

def paramMsg : String := "parameter must be one of on|off"

def inheritOnlyMsg : String :=
  "`inherit` is only a valid flag on overwrites, please specify on|off"

def embedsOnMsg : String :=
  "feedbot will now post updates in this guild using embeds, unless overridden elsewhere."

def embedsOffMsg : String :=
  "feedbot will no longer post updates in this guild using embeds, unless overridden elsewhere."

def embedsInheritMsg : String :=
  "feedbot will default to the guild-wide behavior for embeds."

def webhooksOnMsg : String :=
  "feedbot will now post updates in this guild using webhooks, unless overridden elsewhere."

def webhooksOffMsg : String :=
  "feedbot will no longer post updates in this guild using webhooks, unless overridden elsewhere."

def webhooksInheritMsg : String :=
  "feedbot will default to the guild-wide behavior for webhooks."

/-! ### Tri-state parsing and formatting -/

/-- The `on|off|inherit` token parse duplicated verbatim in `setEmbed` and
`setWebhook` (any other token gets the `paramMsg` reply).  The parsed value
is the `sql.NullBool`: `some true` / `some false` definite, `none`
indefinite. -/
def parseTri (a : String) : Option (Option Bool) :=
  if a = "on" then some (some true)
  else if a = "off" then some (some false)
  else if a = "inherit" then some none
  else none

/-- `fmtBool` from the source: note that a definite `false` is rendered as
the literal string `"false"`, not `"off"`. -/
def fmtBool (v : Option Bool) : String :=
  match v with
  | none => "inherit"
  | some true => "on"
  | some false => "false"

/-! ### Permission checking -/

def permissionAdministrator : Nat := 8

/-- The role loop of `memberHasPermission`: each role ID is resolved only
through `stateRole` (the cache); a lookup failure is returned immediately. -/
def checkRoles (d : Directory) (guildID : String) (permission : Nat) :
    List String → Except GoErr Bool
  | [] => .ok false
  | roleID :: rest =>
    match d.stateRole guildID roleID with
    | .error e => .error e
    | .ok role =>
      if role.permissions &&& permission ≠ 0 then .ok true
      else checkRoles d guildID permission rest

/-- `memberHasPermission` (source lines 482-503): the member is looked up
cache-first with a live fallback, then the roles are scanned. -/
def memberHasPermission (d : Directory) (guildID userID : String) (permission : Nat) :
    Except GoErr Bool :=
  match d.stateMember guildID userID with
  | .ok member => checkRoles d guildID permission member.roles
  | .error _ =>
    match d.guildMember guildID userID with
    | .error e => .error e
    | .ok member => checkRoles d guildID permission member.roles

/-- `checkPrivilege` (source lines 469-480).  On a non-admin caller it sends
the `adminOnly` reply; if that send succeeds it falls through to the final
`return true, nil`, so the caller still sees `authorized=true`. -/
def checkPrivilege (env : Env) (ctx : Ctx) : List String × Except GoErr Bool :=
  match memberHasPermission env.dir ctx.guildID ctx.authorID permissionAdministrator with
  | .error e => ([], .error e)
  | .ok ok =>
    if ok then ([], .ok true)
    else
      match env.sendErr adminOnly with
      | some e => ([adminOnly], .error e)
      | none => ([adminOnly], .ok true)

/-- The `ok, err := checkPrivilege(ctx); if err != nil return err; if !ok
return nil` prologue shared by `add`, `remove`, `list` and `set`.  The body
receives the replies the gate already sent. -/
def gated (env : Env) (ctx : Ctx) (body : List String → HOut) : HOut :=
  match checkPrivilege env ctx with
  | (rs, .error e) => { replies := rs, muts := [], err := some e }
  | (rs, .ok true) => body rs
  | (rs, .ok false) => { replies := rs, muts := [], err := none }

/-! ### Command handlers -/

def addWithChannel (env : Env) (ctx : Ctx) (rs : List String) (uri channel : String) : HOut :=
  match env.getOrCreateFeed uri with
  | .error e => { replies := rs, muts := [.getOrCreateFeed uri], err := some e }
  | .ok feed =>
    match env.addSubscription channel ctx.guildID feed.ID with
    | .dup sub =>
      replyOut env rs [.getOrCreateFeed uri, .addSubscription channel ctx.guildID feed.ID]
        (subExistsMsg sub.ID)
    | .fail e =>
      { replies := rs, muts := [.getOrCreateFeed uri, .addSubscription channel ctx.guildID feed.ID],
        err := some e }
    | .ok sub =>
      replyOut env rs [.getOrCreateFeed uri, .addSubscription channel ctx.guildID feed.ID]
        (subCreatedMsg sub.ID)

/-- `add <uri> [channel]` (source lines 144-181). -/
def add (env : Env) (ctx : Ctx) : HOut :=
  gated env ctx fun rs =>
    match ctx.args with
    | [uri] => addWithChannel env ctx rs uri ctx.channelID
    | [uri, c] =>
      match chanToken c with
      | none => replyOut env rs [] useMentionMsg
      | some channel => addWithChannel env ctx rs uri channel
    | _ => replyOut env rs [] usageAddMsg

/-- `remove <id>` (source lines 184-213).  The error returned by
`DestroySubscription` is assigned to `err` but the function then returns
`ctx.Reply(...)`, discarding it (source lines 211-212). -/
def remove (env : Env) (ctx : Ctx) : HOut :=
  gated env ctx fun rs =>
    match ctx.args with
    | [idStr] =>
      match atoi idStr with
      | none => replyOut env rs [] idNumberMsg
      | some id =>
        match env.getSubscription id with
        | .error .noRows => replyOut env rs [] notFoundMsg
        | .error (.other e) => { replies := rs, muts := [], err := some e }
        | .ok sub =>
          if sub.GuildID ≠ ctx.guildID then replyOut env rs [] (notInGuildMsg id)
          else
            replyOut env rs [.destroySub id] (deletedMsg id)
    | _ => replyOut env rs [] usageRemoveMsg

def goBool (b : Bool) : String := if b then "true" else "false"

/-- The header `list` writes before the subscription rows (guild contact,
guild defaults, column titles). -/
def listHeader (gc : GuildConfig) : String :=
  "**Guild Contact:** `" ++ gc.Contact ++ "`\n**Embeds?** " ++ goBool gc.Embeds ++
    "\n**Webhooks?** " ++ goBool gc.Webhooks ++ "\n\n" ++
    "**Sub ID | Channel | Feed URI | Embed? | Webhook?\n\n**"

/-- One subscription row of `list`. -/
def subRow (s : Subscription) : String :=
  toString s.ID ++ " | <#" ++ s.ChannelID ++ "> | `" ++ s.FeedURI ++ "` | " ++
    fmtBool s.Overwrite.Embeds ++ " | " ++ fmtBool s.Overwrite.Webhooks ++ "\n"

/-- The accumulation loop of `list`: append each row to the buffer and
flush it as a reply once its length exceeds 1900 (the source tests
`b.Len() > 1900`, a byte count; the embedding counts characters, which
agrees on ASCII).  Returns the flushed replies, the remaining buffer and
the error of a failed flush, if any. -/
def listLoop (env : Env) (b : String) :
    List Subscription → List String × String × Option GoErr
  | [] => ([], b, none)
  | s :: rest =>
    if 1900 < (b ++ subRow s).length then
      match env.sendErr (b ++ subRow s) with
      | some e => ([b ++ subRow s], "", some e)
      | none =>
        ((b ++ subRow s) :: (listLoop env "" rest).1,
         (listLoop env "" rest).2.1, (listLoop env "" rest).2.2)
    else listLoop env (b ++ subRow s) rest

/-- `list` (source lines 216-253): header, paginated rows, final flush of
the remaining buffer. -/
def list (env : Env) (ctx : Ctx) : HOut :=
  gated env ctx fun rs =>
    match env.getGuildConfig ctx.guildID with
    | .error e => { replies := rs, muts := [], err := some e }
    | .ok gc =>
      match env.getSubscriptions ctx.guildID with
      | .error e => { replies := rs, muts := [], err := some e }
      | .ok subs =>
        match listLoop env (listHeader gc) subs with
        | (msgs, _, some e) => { replies := rs ++ msgs, muts := [], err := some e }
        | (msgs, bf, none) =>
          { replies := rs ++ msgs ++ [bf], muts := [], err := env.sendErr bf }

/-- `set channel <id> [channel]` (source lines 285-323). -/
def setChannel (env : Env) (ctx : Ctx) : HOut :=
  match ctx.args with
  | _ :: idStr :: rest =>
    let chanRes : Option String :=
      if rest.length = 1 then chanToken (rest.headD "")
      else some ctx.channelID
    match chanRes with
    | none => replyOut env [] [] useMentionMsg
    | some channelID =>
      match atoi idStr with
      | none => replyOut env [] [] idNumberMsg
      | some id =>
        match env.getSubscription id with
        | .error .noRows => replyOut env [] [] notFoundMsg
        | .error (.other e) => { replies := [], muts := [], err := some e }
        | .ok sub =>
          if sub.GuildID ≠ ctx.guildID then replyOut env [] [] (notInGuildMsg id)
          else
            match env.modifySubscriptionChannel id channelID with
            | some e => { replies := [], muts := [.modifySubChannel id channelID], err := some e }
            | none =>
              replyOut env [] [.modifySubChannel id channelID] (channelChangedMsg id channelID)
  | _ => replyOut env [] [] usageSetChannelMsg

/-- `set contact <user|channel>` (source lines 326-351): channel mention
first, then the message's first user mention, then a bare numeric ID,
otherwise reject. -/
def setContact (env : Env) (ctx : Ctx) : HOut :=
  match ctx.args with
  | [_, arg] =>
    let idRes : Option String :=
      match chanToken arg with
      | some c => some ("c:" ++ c)
      | none =>
        match ctx.mentions with
        | u :: _ => some ("u:" ++ u)
        | [] =>
          match atoi arg with
          | some _ => some ("u:" ++ arg)
          | none => none
    match idRes with
    | none => replyOut env [] [] contactInvalidMsg
    | some id =>
      match env.modifyGuildContact ctx.guildID id with
      | some e => { replies := [], muts := [.modifyGuildContact ctx.guildID id], err := some e }
      | none => replyOut env [] [.modifyGuildContact ctx.guildID id] contactChangedMsg
  | _ => replyOut env [] [] usageContactMsg

/-- The final reply of `setEmbed`: `if val.Bool`, `if val.Valid`, default. -/
def embedDoneMsg (val : Option Bool) : String :=
  match val with
  | some true => embedsOnMsg
  | some false => embedsOffMsg
  | none => embedsInheritMsg

/-- The final reply of `setWebhook`. -/
def webhookDoneMsg (val : Option Bool) : String :=
  match val with
  | some true => webhooksOnMsg
  | some false => webhooksOffMsg
  | none => webhooksInheritMsg

/-- `set embed <on|off|inherit> [id]` (source lines 354-408). -/
def setEmbed (env : Env) (ctx : Ctx) : HOut :=
  match ctx.args with
  | _ :: a :: rest =>
    match parseTri a with
    | none => replyOut env [] [] paramMsg
    | some val =>
      match rest with
      | [] =>
        match val with
        | none => replyOut env [] [] inheritOnlyMsg
        | some b =>
          match env.modifyGuildEmbeds ctx.guildID b with
          | some e => { replies := [], muts := [.modifyGuildEmbeds ctx.guildID b], err := some e }
          | none => replyOut env [] [.modifyGuildEmbeds ctx.guildID b] (embedDoneMsg val)
      | idStr :: _ =>
        match atoi idStr with
        | none => replyOut env [] [] idNumberMsg
        | some id =>
          match env.getSubscription id with
          | .error .noRows => replyOut env [] [] notFoundMsg
          | .error (.other e) => { replies := [], muts := [], err := some e }
          | .ok sub =>
            if sub.GuildID ≠ ctx.guildID then replyOut env [] [] (notInGuildMsg id)
            else
              match env.modifyOverwriteEmbeds sub.ID val with
              | some e =>
                { replies := [], muts := [.modifyOverwriteEmbeds sub.ID val], err := some e }
              | none =>
                replyOut env [] [.modifyOverwriteEmbeds sub.ID val] (embedDoneMsg val)
  | _ => replyOut env [] [] usageEmbedMsg

/-- `set webhook <on|off|inherit> [id]` (source lines 411-465), duplicating
the structure of `setEmbed`. -/
def setWebhook (env : Env) (ctx : Ctx) : HOut :=
  match ctx.args with
  | _ :: a :: rest =>
    match parseTri a with
    | none => replyOut env [] [] paramMsg
    | some val =>
      match rest with
      | [] =>
        match val with
        | none => replyOut env [] [] inheritOnlyMsg
        | some b =>
          match env.modifyGuildWebhooks ctx.guildID b with
          | some e => { replies := [], muts := [.modifyGuildWebhooks ctx.guildID b], err := some e }
          | none => replyOut env [] [.modifyGuildWebhooks ctx.guildID b] (webhookDoneMsg val)
      | idStr :: _ =>
        match atoi idStr with
        | none => replyOut env [] [] idNumberMsg
        | some id =>
          match env.getSubscription id with
          | .error .noRows => replyOut env [] [] notFoundMsg
          | .error (.other e) => { replies := [], muts := [], err := some e }
          | .ok sub =>
            if sub.GuildID ≠ ctx.guildID then replyOut env [] [] (notInGuildMsg id)
            else
              match env.modifyOverwriteWebhooks sub.ID val with
              | some e =>
                { replies := [], muts := [.modifyOverwriteWebhooks sub.ID val], err := some e }
              | none =>
                replyOut env [] [.modifyOverwriteWebhooks sub.ID val] (webhookDoneMsg val)
  | _ => replyOut env [] [] usageWebhookMsg

/-- `set <channel|contact|embed|webhook> [...]` (source lines 256-282). -/
def set (env : Env) (ctx : Ctx) : HOut :=
  gated env ctx fun rs =>
    match ctx.args with
    | [] => replyOut env rs [] usageSetMsg
    | sc :: _ =>
      let sub : HOut :=
        if sc = "channel" then setChannel env ctx
        else if sc = "contact" then setContact env ctx
        else if sc = "embed" then setEmbed env ctx
        else if sc = "webhook" then setWebhook env ctx
        else replyOut env [] [] subcommandMsg
      { replies := rs ++ sub.replies, muts := sub.muts, err := sub.err }

/-! ### READY handling and the dispatch recovery boundary -/

/-- Execution of a Go function body that may panic instead of returning. -/
inductive ExecResult (α : Type) where
  | ok (a : α)
  | panicked (info : GoErr)
deriving DecidableEq

/-- The session-scoped package variables written by `onReady`. -/
structure SessionVars where
  selfMention : String
  owner : String
deriving DecidableEq

/-- The READY event data `onReady` consumes: the bot's own mention string
and the result of the `s.Application("@me")` directory call resolving the
application owner. -/
structure ReadyInfo where
  selfMention : String
  appOwner : Except GoErr String
deriving DecidableEq

/-- `onReady` (source lines 48-57): on an `Application` lookup failure it
executes `panic(err)`; otherwise it assigns the session variables. -/
def onReady (r : ReadyInfo) : ExecResult SessionVars :=
  match r.appOwner with
  | .error e => .panicked e
  | .ok ownerID => .ok { selfMention := r.selfMention, owner := ownerID }

/-- What becomes of one event dispatch at the process level. -/
inductive DispatchOutcome where
  | completed (logged : Option String)
  | recovered (verb : String) (info : GoErr)
  | crashed (info : GoErr)
deriving DecidableEq

/-- The `defer`/`recover` block installed inside `onMessageCreate` (source
lines 88-93) around the handler invocation: a panic is caught and logged
with the verb, a returned error is logged with the verb. -/
def recoverBoundary (verb : String) (exec : ExecResult (Option GoErr)) : DispatchOutcome :=
  match exec with
  | .panicked info => .recovered verb info
  | .ok none => .completed none
  | .ok (some e) => .completed (some ("cmd:" ++ verb ++ " err:" ++ e))

/-- Dispatch of a READY event: `onReady` runs with no recovery boundary
around it, so a panic escapes and crashes the process. -/
def handleReady (vars : SessionVars) (r : ReadyInfo) : DispatchOutcome × SessionVars :=
  match onReady r with
  | .panicked e => (.crashed e, vars)
  | .ok v => (.completed none, v)

/-- Dispatch of a MESSAGE_CREATE event once a verb has been matched: the
handler execution runs inside the recovery boundary. -/
def handleMessage (verb : String) (exec : ExecResult (Option GoErr)) : DispatchOutcome :=
  recoverBoundary verb exec

/-! ### Concrete collaborators for evaluation -/

/-- A directory whose cache knows the member and an administrator role. -/
def dir0 : Directory :=
  { stateMember := fun _ _ => .ok { roles := ["r1"] }
    guildMember := fun _ _ => .error "no live member"
    stateRole := fun _ _ => .ok { permissions := permissionAdministrator }
    guildRole := fun _ _ => .error "no live role" }

def sub7 : Subscription :=
  { ID := 7, ChannelID := "111", GuildID := "g", FeedURI := "http://feed.example/a",
    Overwrite := { Embeds := none, Webhooks := none } }

def gc0 : GuildConfig := { Contact := "u:1", Embeds := true, Webhooks := false }

/-- A benign environment: every send and write succeeds, subscription 7
exists in guild `g`. -/
def env0 : Env :=
  { dir := dir0
    sendErr := fun _ => none
    getSubscription := fun id => if id = 7 then .ok sub7 else .error .noRows
    destroySubscription := fun _ => none
    modifySubscriptionChannel := fun _ _ => none
    modifyGuildContact := fun _ _ => none
    modifyGuildEmbeds := fun _ _ => none
    modifyGuildWebhooks := fun _ _ => none
    modifyOverwriteEmbeds := fun _ _ => none
    modifyOverwriteWebhooks := fun _ _ => none
    getGuildConfig := fun _ => .ok gc0
    getSubscriptions := fun _ => .ok []
    getOrCreateFeed := fun uri => .ok { ID := 1, URI := uri }
    addSubscription := fun ch g _ =>
      .ok { ID := 9, ChannelID := ch, GuildID := g, FeedURI := "",
            Overwrite := { Embeds := none, Webhooks := none } } }

/-- The invoking message context for `remove 7` from guild `g`. -/
def ctx0 : Ctx :=
  { guildID := "g", channelID := "chan", authorID := "u", mentions := [], args := ["7"] }

/-- An environment whose author holds no role with the administrator bit. -/
def envNonAdmin : Env :=
  { env0 with dir := { dir0 with stateRole := fun _ _ => .ok { permissions := 0 } } }

/-- An environment in which `DestroySubscription` fails. -/
def envDestroyFail : Env :=
  { env0 with destroySubscription := fun _ => some "db failure" }

/-! ### Claim theorems -/

/-- C1: a non-administrator (no role carries the administrator bit) sending
`remove 7` for a subscription of their own guild: `checkPrivilege` does
send the fixed admin-required reply, but then returns `authorized=true`
(the source falls through to `return true, nil`), so `remove` proceeds,
destroys subscription 7 and additionally sends the deletion reply — the
claimed `authorized=false` / no-mutation behaviour does not hold. -/
theorem remove_nonadmin_proceeds :
    checkRoles envNonAdmin.dir "g" permissionAdministrator ["r1"] = .ok false ∧
    checkPrivilege envNonAdmin ctx0 = ([adminOnly], .ok true) ∧
    remove envNonAdmin ctx0 =
      { replies := [adminOnly, deletedMsg 7], muts := [.destroySub 7], err := none } :=
  ⟨rfl, rfl, rfl⟩

/-- C2 counterexample: parsing the tri-state token `off` yields the
definite-false value, but `fmtBool` renders that value as the literal
string `"false"`, not `"off"`, so `format(parse "off")` is not `"off"`. -/
theorem fmtBool_off_roundtrip_fails :
    parseTri "off" = some (some false) ∧ fmtBool (some false) = "false" ∧
    fmtBool (some false) ≠ "off" :=
  ⟨rfl, rfl, by decide⟩

/-- C2 amended: the round-trip holds for `on` and `inherit`, while `off`
parses to definite-false and is formatted back as `"false"`. -/
theorem parse_fmt_roundtrip_amended :
    parseTri "on" = some (some true) ∧ fmtBool (some true) = "on" ∧
    parseTri "inherit" = some none ∧ fmtBool none = "inherit" ∧
    parseTri "off" = some (some false) ∧ fmtBool (some false) = "false" :=
  ⟨rfl, rfl, rfl, rfl, rfl, rfl⟩

/-- C4: with an administrator caller and subscription 7 present in the
guild, a failing `DestroySubscription` is not propagated: `remove` still
sends the deletion success reply and returns no error, because the source
overwrites the destroy error with the `ctx.Reply` result. -/
theorem remove_swallows_destroy_error :
    envDestroyFail.destroySubscription 7 = some "db failure" ∧
    remove envDestroyFail ctx0 =
      { replies := [deletedMsg 7], muts := [.destroySub 7], err := none } :=
  ⟨rfl, rfl⟩

/-- C10: when the directory call resolving the application owner fails
during READY handling, `onReady` panics with that error and the panic
escapes dispatch as a process crash (no recovery boundary wraps the READY
path), whereas a panic during MESSAGE_CREATE handling is caught by the
recovery boundary installed in `onMessageCreate` and only logged. -/
theorem onReady_panic_uncaught (vars : SessionVars) (mention e : GoErr)
    (verb info : String) :
    onReady { selfMention := mention, appOwner := .error e } = .panicked e ∧
    handleReady vars { selfMention := mention, appOwner := .error e } = (.crashed e, vars) ∧
    handleMessage verb (.panicked info) = .recovered verb info :=
  ⟨rfl, rfl, rfl⟩

/-- A directory whose caches miss: the member lookup recovers through the
live query, but the role lookup has no live path in the source even though
the directory offers one. -/
def dirC3 : Directory :=
  { stateMember := fun _ _ => .error "member cache miss"
    guildMember := fun _ _ => .ok { roles := ["r1"] }
    stateRole := fun _ _ => .error "role cache miss"
    guildRole := fun _ _ => .ok { permissions := permissionAdministrator } }

/-- C3 counterexample: with the role cache missing but the live role query
succeeding (and returning an administrator role), `memberHasPermission`
still returns a hard error — the role lookup is not cache-first with live
fallback, it is cache-only. -/
theorem roleLookup_no_live_fallback :
    dirC3.guildRole "g" "r1" = .ok { permissions := permissionAdministrator } ∧
    memberHasPermission dirC3 "g" "u" permissionAdministrator = .error "role cache miss" :=
  ⟨rfl, rfl⟩

theorem checkRoles_guildRole_irrel (d : Directory) (f : String → String → Except GoErr Role)
    (g : String) (p : Nat) (l : List String) :
    checkRoles { d with guildRole := f } g p l = checkRoles d g p l := by
  induction l with
  | nil => rfl
  | cons r rest ih => cases hsr : d.stateRole g r <;> simp [checkRoles, hsr, ih]

/-- C3 amended: the member lookup is cache-first with a live fallback, but
each role ID is resolved only through the cache: `memberHasPermission`
never consults the live role query, and a role-cache failure is
immediately a hard error. -/
theorem memberHasPermission_rolesCacheOnly (d : Directory) (g u : String) (p : Nat) :
    (∀ f, memberHasPermission { d with guildRole := f } g u p = memberHasPermission d g u p) ∧
    (∀ m, d.stateMember g u = .ok m →
      memberHasPermission d g u p = checkRoles d g p m.roles) ∧
    (∀ e m, d.stateMember g u = .error e → d.guildMember g u = .ok m →
      memberHasPermission d g u p = checkRoles d g p m.roles) ∧
    (∀ e e2, d.stateMember g u = .error e → d.guildMember g u = .error e2 →
      memberHasPermission d g u p = .error e2) ∧
    (∀ rid rest e, d.stateRole g rid = .error e → checkRoles d g p (rid :: rest) = .error e) := by
  refine ⟨fun f => ?_, fun m hm => ?_, fun e m he hm => ?_, fun e e2 he hm => ?_,
    fun rid rest e hr => ?_⟩
  · cases hsm : d.stateMember g u with
    | ok m => simp [memberHasPermission, hsm, checkRoles_guildRole_irrel]
    | error e =>
      cases hgm : d.guildMember g u <;>
        simp [memberHasPermission, hsm, hgm, checkRoles_guildRole_irrel]
  · simp [memberHasPermission, hm]
  · simp [memberHasPermission, he, hm]
  · simp [memberHasPermission, he, hm]
  · simp [checkRoles, hr]

/-- Witness for the amended C3 theorem: at the concrete directory `dirC3`
a role-cache failure surfaces as a hard error from the role loop. -/
theorem memberHasPermission_rolesCacheOnly_w :
    checkRoles dirC3 "g" permissionAdministrator ["r1"] = .error "role cache miss" :=
  (memberHasPermission_rolesCacheOnly dirC3 "g" "u" permissionAdministrator).2.2.2.2
    "r1" [] "role cache miss" rfl

/-- C5: a subscription owned by another guild is always rejected with the
"does not exist in this guild" reply and no repository write, for `remove`,
`set channel`, `set embed` and `set webhook` alike, with no hard error. -/
theorem crossGuild_always_rejected (env : Env) (ctx : Ctx) (idStr a0 : String) (id : Int)
    (sub : Subscription)
    (hid : atoi idStr = some id)
    (hsub : env.getSubscription id = .ok sub)
    (hg : sub.GuildID ≠ ctx.guildID)
    (hsend : ∀ m, env.sendErr m = none)
    (hpriv : memberHasPermission env.dir ctx.guildID ctx.authorID permissionAdministrator
      = .ok true) :
    (ctx.args = [idStr] →
      remove env ctx = { replies := [notInGuildMsg id], muts := [], err := none }) ∧
    (ctx.args = [a0, idStr] →
      setChannel env ctx = { replies := [notInGuildMsg id], muts := [], err := none }) ∧
    (∀ t v, parseTri t = some v → ctx.args = [a0, t, idStr] →
      setEmbed env ctx = { replies := [notInGuildMsg id], muts := [], err := none } ∧
      setWebhook env ctx = { replies := [notInGuildMsg id], muts := [], err := none }) := by
  refine ⟨fun h => ?_, fun h => ?_, fun t v ht h => ⟨?_, ?_⟩⟩
  · simp [remove, gated, checkPrivilege, h, hpriv, hid, hsub, hg, replyOut, hsend]
  · simp [setChannel, h, hid, hsub, hg, replyOut, hsend]
  · simp [setEmbed, h, ht, hid, hsub, hg, replyOut, hsend]
  · simp [setWebhook, h, ht, hid, hsub, hg, replyOut, hsend]

def subA : Subscription :=
  { ID := 7, ChannelID := "111", GuildID := "A", FeedURI := "http://feed.example/a",
    Overwrite := { Embeds := none, Webhooks := none } }

/-- Every subscription lookup resolves to a guild-A subscription. -/
def envCross : Env := { env0 with getSubscription := fun _ => .ok subA }

/-- The invocation comes from guild B. -/
def ctxB : Ctx := { ctx0 with guildID := "B" }

/-- Witness for C5: `remove 7` from guild B against a guild-A subscription
is rejected with the fixed reply and no write. -/
theorem crossGuild_always_rejected_w :
    remove envCross ctxB = { replies := [notInGuildMsg 7], muts := [], err := none } :=
  (crossGuild_always_rejected envCross ctxB "7" "x" 7 subA rfl rfl (by decide)
    (fun _ => rfl) rfl).1 rfl

/-- C6: `set embed inherit` / `set webhook inherit` with no subscription ID
is rejected with the corrective reply, returns no hard error and performs
no repository write, for every environment and guild. -/
theorem inherit_without_id_rejected (env : Env) (ctx : Ctx) (a0 : String)
    (h : ctx.args = [a0, "inherit"]) (hsend : env.sendErr inheritOnlyMsg = none) :
    setEmbed env ctx = { replies := [inheritOnlyMsg], muts := [], err := none } ∧
    setWebhook env ctx = { replies := [inheritOnlyMsg], muts := [], err := none } := by
  constructor <;> simp [setEmbed, setWebhook, h, parseTri, replyOut, hsend]

def ctxInherit : Ctx := { ctx0 with args := ["embed", "inherit"] }

/-- Witness for C6 at a concrete environment and guild. -/
theorem inherit_without_id_rejected_w :
    setEmbed env0 ctxInherit = { replies := [inheritOnlyMsg], muts := [], err := none } ∧
    setWebhook env0 ctxInherit = { replies := [inheritOnlyMsg], muts := [], err := none } :=
  inherit_without_id_rejected env0 ctxInherit "embed" rfl rfl

/-! ### Facts about the channel-mention recognizer -/

theorem digit_ne_gt {c : Char} (h : Char.isDigit c = true) : c ≠ '>' := by
  intro hc
  rw [hc] at h
  exact absurd h (by decide)

theorem moreDigitsClose_digits (post : List Char) :
    ∀ ds : List Char, (∀ c ∈ ds, Char.isDigit c = true) →
      moreDigitsClose (ds ++ '>' :: post) = true := by
  intro ds
  induction ds with
  | nil => intro _; simp [moreDigitsClose]
  | cons c cs ih =>
    intro hdig
    have hc : Char.isDigit c = true := hdig c (by simp)
    have : moreDigitsClose (c :: (cs ++ '>' :: post)) =
        (Char.isDigit c && moreDigitsClose (cs ++ '>' :: post)) := by
      simp [moreDigitsClose, digit_ne_gt hc]
    rw [List.cons_append, this, hc, ih (fun x hx => hdig x (by simp [hx]))]
    rfl

theorem mention_contains (pre post ds : List Char) (hne : ds ≠ [])
    (hdig : ∀ c ∈ ds, Char.isDigit c = true) :
    containsChanMention (pre ++ '<' :: '#' :: ds ++ '>' :: post) = true := by
  induction pre with
  | nil =>
    obtain ⟨d, ds', rfl⟩ : ∃ d ds', ds = d :: ds' := by
      cases ds with
      | nil => exact absurd rfl hne
      | cons d ds' => exact ⟨d, ds', rfl⟩
    have hd : Char.isDigit d = true := hdig d (by simp)
    simp [containsChanMention, mentionAt, digitsClose1, hd,
      moreDigitsClose_digits post ds' (fun x hx => hdig x (by simp [hx]))]
  | cons a pre' ih =>
    rw [List.cons_append]
    simp only [containsChanMention, Bool.or_eq_true]
    exact Or.inr ih

/-- A token that is exactly a channel mention around the digits `ds`. -/
def exactMention (ds : List Char) : String :=
  String.mk ('<' :: '#' :: ds ++ ['>'])

/-- A token containing a channel mention around the digits `ds`, with
arbitrary other characters before and after it. -/
def mentionToken (pre post ds : List Char) : String :=
  String.mk (pre ++ '<' :: '#' :: ds ++ '>' :: post)

theorem channelMatch_mentionToken (pre post ds : List Char) (hne : ds ≠ [])
    (hdig : ∀ c ∈ ds, Char.isDigit c = true) :
    channelMatch (mentionToken pre post ds) = true :=
  mention_contains pre post ds hne hdig

theorem strip_exactMention (ds : List Char) :
    stripMention (exactMention ds) = String.mk ds := by
  simp [stripMention, exactMention]

theorem exactMention_eq_mentionToken (ds : List Char) :
    exactMention ds = mentionToken [] [] ds := by
  simp [exactMention, mentionToken]

/-- C7: contact parsing precedence in `set contact`.  A token matched by
the channel-mention pattern always wins and stores `"c:"` plus the sliced
token (which is exactly the mention's digits when the token is exactly
`<#digits>`); otherwise the message's first user mention is stored as
`"u:"+id`; otherwise a valid plain integer token is stored as
`"u:"+token`; otherwise the input is rejected with the corrective reply
and nothing is stored. -/
theorem setContact_precedence (env : Env) (ctx : Ctx) (a0 arg : String)
    (h : ctx.args = [a0, arg]) :
    (channelMatch arg = true →
      (setContact env ctx).muts =
        [Mutation.modifyGuildContact ctx.guildID ("c:" ++ stripMention arg)]) ∧
    (∀ ds : List Char, ds ≠ [] → (∀ c ∈ ds, Char.isDigit c = true) →
      arg = exactMention ds →
      (setContact env ctx).muts =
        [Mutation.modifyGuildContact ctx.guildID ("c:" ++ String.mk ds)]) ∧
    (channelMatch arg = false → ∀ u us, ctx.mentions = u :: us →
      (setContact env ctx).muts = [Mutation.modifyGuildContact ctx.guildID ("u:" ++ u)]) ∧
    (channelMatch arg = false → ctx.mentions = [] → ∀ n : Int, atoi arg = some n →
      (setContact env ctx).muts = [Mutation.modifyGuildContact ctx.guildID ("u:" ++ arg)]) ∧
    (channelMatch arg = false → ctx.mentions = [] → atoi arg = none →
      setContact env ctx =
        { replies := [contactInvalidMsg], muts := [], err := env.sendErr contactInvalidMsg }) := by
  refine ⟨fun hm => ?_, fun ds hne hdig hargs => ?_, fun hm u us hu => ?_,
    fun hm hu n hn => ?_, fun hm hu hn => ?_⟩
  · cases hmc : env.modifyGuildContact ctx.guildID ("c:" ++ stripMention arg) <;>
      simp [setContact, h, chanToken, hm, hmc, replyOut]
  · subst hargs
    have hm : channelMatch (exactMention ds) = true := by
      rw [exactMention_eq_mentionToken]
      exact channelMatch_mentionToken [] [] ds hne hdig
    cases hmc : env.modifyGuildContact ctx.guildID ("c:" ++ String.mk ds) <;>
      simp [setContact, h, chanToken, hm, hmc, replyOut, strip_exactMention]
  · cases hmc : env.modifyGuildContact ctx.guildID ("u:" ++ u) <;>
      simp [setContact, h, chanToken, hm, hu, hmc, replyOut]
  · cases hmc : env.modifyGuildContact ctx.guildID ("u:" ++ arg) <;>
      simp [setContact, h, chanToken, hm, hu, hn, hmc, replyOut]
  · simp [setContact, h, chanToken, hm, hu, hn, replyOut]

def ctxContact : Ctx := { ctx0 with args := ["contact", "<#42>"], mentions := ["99"] }

/-- Witness for C7: `set contact <#42>` with a user mention also present
stores the channel reference, the channel mention winning. -/
theorem setContact_precedence_w :
    (setContact env0 ctxContact).muts =
      [Mutation.modifyGuildContact "g" ("c:" ++ stripMention "<#42>")] :=
  (setContact_precedence env0 ctxContact "contact" "<#42>" rfl).1 rfl

/-- C9: channel-mention recognition in `add`, `set channel` and
`set contact` is substring-based — a token containing `<#digits>` anywhere
passes `channelRegex` and is accepted by all three handlers — and the
stored channel ID is the whole token minus its first two and last
characters (`c[2:len(c)-1]`), so it equals the mention's digits exactly
when the token is exactly `<#digits>`. -/
theorem channel_mention_substring (pre post ds : List Char)
    (hne : ds ≠ []) (hdig : ∀ c ∈ ds, Char.isDigit c = true) :
    channelMatch (mentionToken pre post ds) = true ∧
    (∀ c : String, channelMatch c = true → chanToken c = some (stripMention c)) ∧
    (∀ env ctx a0, ctx.args = [a0, mentionToken pre post ds] →
      (setContact env ctx).muts =
        [Mutation.modifyGuildContact ctx.guildID
          ("c:" ++ stripMention (mentionToken pre post ds))]) ∧
    (∀ env ctx uri feed sub,
      memberHasPermission env.dir ctx.guildID ctx.authorID permissionAdministrator = .ok true →
      ctx.args = [uri, mentionToken pre post ds] →
      env.getOrCreateFeed uri = .ok feed →
      env.addSubscription (stripMention (mentionToken pre post ds)) ctx.guildID feed.ID
        = .ok sub →
      env.sendErr (subCreatedMsg sub.ID) = none →
      add env ctx =
        { replies := [subCreatedMsg sub.ID],
          muts := [.getOrCreateFeed uri,
            .addSubscription (stripMention (mentionToken pre post ds)) ctx.guildID feed.ID],
          err := none }) ∧
    (∀ env ctx a0 idStr id sub,
      ctx.args = [a0, idStr, mentionToken pre post ds] →
      atoi idStr = some id →
      env.getSubscription id = .ok sub →
      sub.GuildID = ctx.guildID →
      env.modifySubscriptionChannel id (stripMention (mentionToken pre post ds)) = none →
      env.sendErr (channelChangedMsg id (stripMention (mentionToken pre post ds))) = none →
      setChannel env ctx =
        { replies := [channelChangedMsg id (stripMention (mentionToken pre post ds))],
          muts := [.modifySubChannel id (stripMention (mentionToken pre post ds))],
          err := none }) ∧
    stripMention (exactMention ds) = String.mk ds ∧
    (∀ tok : String, List.IsInfix ('<' :: '#' :: ds ++ ['>']) tok.data →
      stripMention tok = String.mk ds → tok = exactMention ds) := by
  have hmatch := channelMatch_mentionToken pre post ds hne hdig
  refine ⟨hmatch, fun c hc => by simp [chanToken, hc], fun env ctx a0 h => ?_,
    fun env ctx uri feed sub hpriv h hfeed hadd hsend => ?_,
    fun env ctx a0 idStr id sub h hid hsub hg hmod hsend => ?_,
    strip_exactMention ds, fun tok hinf hstrip => ?_⟩
  · cases hmc : env.modifyGuildContact ctx.guildID
        ("c:" ++ stripMention (mentionToken pre post ds)) <;>
      simp [setContact, h, chanToken, hmatch, hmc, replyOut]
  · simp [add, gated, checkPrivilege, hpriv, h, chanToken, hmatch, addWithChannel, hfeed,
      hadd, replyOut, hsend]
  · simp [setChannel, h, chanToken, hmatch, hid, hsub, hg, hmod, replyOut, hsend]
  · cases tok with
    | mk l =>
      have hdata : (l.drop 2).dropLast = ds := congrArg String.data hstrip
      have hlen2 : ('<' :: '#' :: ds ++ ['>']).length ≤ l.length := hinf.length_le
      have hmlen : ('<' :: '#' :: ds ++ ['>']).length = ds.length + 3 := by simp
      have hlen1 : l.length - 2 - 1 = ds.length := by
        have hcongr := congrArg List.length hdata
        simpa [List.length_dropLast, List.length_drop] using hcongr
      have hleq : ('<' :: '#' :: ds ++ ['>']).length = l.length := by omega
      have heq := hinf.sublist.eq_of_length hleq
      simpa [exactMention] using congrArg String.mk heq.symm

/-- Witness for C9: the token `x<#42>y` (extra characters around the
mention) is matched by the substring-based recognizer. -/
theorem channel_mention_substring_w :
    channelMatch (mentionToken ['x'] ['y'] ['4', '2']) = true :=
  (channel_mention_substring ['x'] ['y'] ['4', '2'] (by decide) (by decide)).1

/-! ### Pagination of `list` -/

/-- Concatenation of a list of replies, in order. -/
def concatAll : List String → String
  | [] => ""
  | s :: rest => s ++ concatAll rest

theorem concatAll_concat (l : List String) (x : String) :
    concatAll (l ++ [x]) = concatAll l ++ x := by
  induction l with
  | nil => simp [concatAll, String.empty_append, String.append_empty]
  | cons s rest ih => simp [concatAll, ih, String.append_assoc]

theorem listLoop_spec (env : Env) (hsend : ∀ m, env.sendErr m = none) :
    ∀ (subs : List Subscription) (b : String),
      (listLoop env b subs).2.2 = none ∧
      concatAll (listLoop env b subs).1 ++ (listLoop env b subs).2.1
        = b ++ concatAll (subs.map subRow) ∧
      ∀ m ∈ (listLoop env b subs).1, 1900 < m.length := by
  intro subs
  induction subs with
  | nil =>
    intro b
    refine ⟨rfl, ?_, by simp [listLoop]⟩
    simp [listLoop, concatAll, String.empty_append, String.append_empty]
  | cons s rest ih =>
    intro b
    by_cases hlen : 1900 < (b ++ subRow s).length
    · obtain ⟨h1, h2, h3⟩ := ih ""
      have hred : listLoop env b (s :: rest) =
          ((b ++ subRow s) :: (listLoop env "" rest).1,
           (listLoop env "" rest).2.1, (listLoop env "" rest).2.2) := by
        simp only [listLoop]
        rw [if_pos hlen, hsend]
      rw [hred]
      refine ⟨h1, ?_, ?_⟩
      · simp only [concatAll, List.map_cons]
        rw [String.append_assoc, h2, String.empty_append, ← String.append_assoc,
          String.append_assoc]
      · intro m hm
        rcases List.mem_cons.mp hm with hm | hm
        · rw [hm]; exact hlen
        · exact h3 m hm
    · have hred : listLoop env b (s :: rest) = listLoop env (b ++ subRow s) rest := by
        simp only [listLoop]
        rw [if_neg hlen]
      obtain ⟨h1, h2, h3⟩ := ih (b ++ subRow s)
      rw [hred]
      refine ⟨h1, ?_, h3⟩
      rw [h2, String.append_assoc]
      simp only [concatAll, List.map_cons]

/-- C8: with every send succeeding, `list` returns no error, the
concatenation of all its replies (the flushed pages followed by the final
buffer) is exactly the header plus every subscription row in order —
nothing omitted, nothing duplicated — and every reply except the final one
was flushed because its length exceeded 1900. -/
theorem list_paginates (env : Env) (ctx : Ctx) (gc : GuildConfig) (subs : List Subscription)
    (hpriv : memberHasPermission env.dir ctx.guildID ctx.authorID permissionAdministrator
      = .ok true)
    (hgc : env.getGuildConfig ctx.guildID = .ok gc)
    (hsubs : env.getSubscriptions ctx.guildID = .ok subs)
    (hsend : ∀ m, env.sendErr m = none) :
    (list env ctx).err = none ∧
    concatAll (list env ctx).replies = listHeader gc ++ concatAll (subs.map subRow) ∧
    ∀ m ∈ (list env ctx).replies.dropLast, 1900 < m.length := by
  obtain ⟨h1, h2, h3⟩ := listLoop_spec env hsend subs (listHeader gc)
  rcases hL : listLoop env (listHeader gc) subs with ⟨msgs, bf, e⟩
  rw [hL] at h1 h2 h3
  simp only at h1 h2 h3
  subst h1
  have hred : list env ctx = { replies := msgs ++ [bf], muts := [], err := none } := by
    simp [list, gated, checkPrivilege, hpriv, hgc, hsubs, hL, hsend]
  rw [hred]
  refine ⟨rfl, ?_, ?_⟩
  · rw [concatAll_concat]
    exact h2
  · intro m hm
    rw [List.dropLast_concat] at hm
    exact h3 m hm

def ctxList : Ctx := { ctx0 with args := [] }

/-- Witness for C8 at a concrete environment (empty subscription list):
one final reply whose concatenation is the header alone. -/
theorem list_paginates_w :
    (list env0 ctxList).err = none ∧
    concatAll (list env0 ctxList).replies =
      listHeader gc0 ++ concatAll (List.map subRow []) ∧
    ∀ m ∈ (list env0 ctxList).replies.dropLast, 1900 < m.length :=
  list_paginates env0 ctxList gc0 [] rfl rfl rfl (fun _ => rfl)

end Feedbot
